import Mathlib

/-!
The bootstrap `main` of Asteroid Dodger (`src/main.cpp`)

The program is one function:

```
int main(int argc, char *argv[])
{
    QGuiApplication app(argc, argv);
    QQmlApplicationEngine engine;
    engine.load(QUrl(QStringLiteral("qrc:/asteroid-dodger.qml")));
    if (engine.rootObjects().isEmpty())
        return -1;
    return app.exec();
}
```

`main` is embedded as a pure function over an explicit `World` that carries the
chronological trace of the calls `main` makes and the stack of objects with
automatic storage duration.  The two collaborators are Qt classes whose code
is outside the repository; what they answer is supplied by an `Env`
(the objects a load instantiates, the value the run loop returns), which may
depend on everything `main` hands them.  The embedding describes the
executions in which every collaborator call returns.

The `int` values involved (`argc`, the literal `-1`, the result of `exec`)
are never subject to arithmetic in `main`, so they are modelled in `Int`
without reduction modulo `2^32`.
-/

namespace AsteroidDodger

/-! ## Data model -/

/-- Handle of a top-level scene object (a `QObject*` of `rootObjects()`). -/
abbrev QObject := Nat

/-- The `QUrl` built from a string literal. -/
structure QUrl where
  text : String
deriving DecidableEq, Repr

/-- The application runtime as `main` builds it: `QGuiApplication app(argc, argv)`. -/
structure QGuiApplication where
  argc : Int
  argv : List String
deriving DecidableEq, Repr

/-- The scene engine: the only part of its state `main` reads is the list of
root objects. -/
structure QQmlApplicationEngine where
  roots : List QObject
deriving DecidableEq, Repr

/-- The two objects with automatic storage duration declared in `main`. -/
inductive Owned where
  | app
  | engine
deriving DecidableEq, Repr

/-- The calls and control transfers of `main`, in the order they happen. -/
inductive Event where
  | constructApp (argc : Int) (argv : List String)
  | constructEngine
  | load (url : QUrl)
  | rootObjectsIsEmpty (answer : Bool)
  | exec (result : Int)
  | ret (code : Int)
  | destroy (o : Owned)
deriving DecidableEq, Repr

/-- What the Qt collaborators answer.  `loadResult app url` is the list of root
objects that loading `url` instantiates in an engine running under `app`;
`execResult app roots` is the value the run loop returns. -/
structure Env where
  loadResult : QGuiApplication → QUrl → List QObject
  execResult : QGuiApplication → List QObject → Int

/-- Execution state: the trace so far and the live automatic objects, the most
recently constructed first. -/
structure World where
  trace : List Event
  scope : List Owned

/-- What an execution of `main` leaves behind: the value returned and the
complete trace. -/
structure Outcome where
  exitCode : Int
  trace : List Event

/-- Append one event to the trace. -/
def World.emit (w : World) (e : Event) : World :=
  { w with trace := w.trace ++ [e] }

/-! ## Operations used by `main` -/

/-- Line 6, `QGuiApplication app(argc, argv);`. -/
def QGuiApplication.construct (argc : Int) (argv : List String) (w : World) :
    QGuiApplication × World :=
  ({ argc := argc, argv := argv },
   { trace := w.trace ++ [Event.constructApp argc argv], scope := Owned.app :: w.scope })

/-- Line 7, `QQmlApplicationEngine engine;`: a fresh engine has no root object. -/
def QQmlApplicationEngine.construct (w : World) : QQmlApplicationEngine × World :=
  ({ roots := [] },
   { trace := w.trace ++ [Event.constructEngine], scope := Owned.engine :: w.scope })

/-- The call `engine.load(url)`: the objects instantiated by the load are added
to the root objects of the engine. -/
def QQmlApplicationEngine.load (engine : QQmlApplicationEngine) (env : Env)
    (app : QGuiApplication) (url : QUrl) (w : World) : QQmlApplicationEngine × World :=
  ({ roots := engine.roots ++ env.loadResult app url }, w.emit (Event.load url))

/-- The call `engine.rootObjects()`. -/
def QQmlApplicationEngine.rootObjects (engine : QQmlApplicationEngine) : List QObject :=
  engine.roots

/-- The test `engine.rootObjects().isEmpty()` of line 9. -/
def QQmlApplicationEngine.rootObjectsIsEmpty (engine : QQmlApplicationEngine) (w : World) :
    Bool × World :=
  (engine.rootObjects.isEmpty, w.emit (Event.rootObjectsIsEmpty engine.rootObjects.isEmpty))

/-- The call `app.exec()`: the run loop is entered and returns. -/
def QGuiApplication.exec (app : QGuiApplication) (env : Env)
    (engine : QQmlApplicationEngine) (w : World) : Int × World :=
  (env.execResult app engine.rootObjects,
   w.emit (Event.exec (env.execResult app engine.rootObjects)))

/-- A `return code;` statement of `main`: the operand is evaluated first, then
the automatic objects are destroyed, the most recently constructed first. -/
def World.leave (w : World) (code : Int) : Outcome :=
  { exitCode := code
    trace := w.trace ++ Event.ret code :: w.scope.map Event.destroy }

/-- The URL literal of line 8. -/
def sceneUrl : QUrl := QUrl.mk "qrc:/asteroid-dodger.qml"

/-- The function `main` of `src/main.cpp`. -/
def main (env : Env) (argc : Int) (argv : List String) : Outcome :=
  let w0 : World := { trace := [], scope := [] }
  let (app, w1) := QGuiApplication.construct argc argv w0
  let (engine0, w2) := QQmlApplicationEngine.construct w1
  let (engine, w3) := engine0.load env app sceneUrl w2
  let (empty, w4) := engine.rootObjectsIsEmpty w3
  if empty then
    w4.leave (-1)
  else
    let (r, w5) := app.exec env engine w4
    w5.leave r

/-! ## Vocabulary of the properties -/

/-- The root objects the engine of `main` holds once the load has been
requested, as the environment determines them. -/
def loadedRoots (env : Env) (argc : Int) (argv : List String) : List QObject :=
  env.loadResult { argc := argc, argv := argv } sceneUrl

/-- The value the run loop returns when `main` enters it. -/
def runLoopResult (env : Env) (argc : Int) (argv : List String) : Int :=
  env.execResult { argc := argc, argv := argv } (loadedRoots env argc argv)

/-- Recognises a run-loop event. -/
def Event.isExec : Event → Bool
  | Event.exec _ => true
  | _ => false

/-- Recognises a load request. -/
def Event.isLoad : Event → Bool
  | Event.load _ => true
  | _ => false

/-- Recognises the destruction of an owned object. -/
def Event.isDestroy : Event → Bool
  | Event.destroy _ => true
  | _ => false

/-- Recognises the construction of an owned object. -/
def Event.isConstruct : Event → Bool
  | Event.constructApp _ _ => true
  | Event.constructEngine => true
  | _ => false

/-- Whether the execution entered the run loop. -/
def Outcome.enteredRunLoop (o : Outcome) : Bool :=
  o.trace.any Event.isExec

/-- The event sequence of a failed start, in the words of the specification:
construct runtime, construct engine, load, observe empty root set, return -1. -/
def failedSequence (argc : Int) (argv : List String) : List Event :=
  [Event.constructApp argc argv, Event.constructEngine, Event.load sceneUrl,
   Event.rootObjectsIsEmpty true, Event.ret (-1)]

/-- The event sequence of a started application, in the words of the
specification: construct runtime, construct engine, load, observe non-empty
root set, run loop, return its value. -/
def runningSequence (argc : Int) (argv : List String) (r : Int) : List Event :=
  [Event.constructApp argc argv, Event.constructEngine, Event.load sceneUrl,
   Event.rootObjectsIsEmpty false, Event.exec r, Event.ret r]

/-! ## Sample environments -/

/-- An environment in which the scene fails to load. -/
def brokenScene : Env :=
  { loadResult := fun _ _ => []
    execResult := fun _ _ => 0 }

/-- An environment in which the scene loads one root object and the run loop
ends with code `r`. -/
def goodScene (r : Int) : Env :=
  { loadResult := fun _ _ => [7]
    execResult := fun _ _ => r }

/-- An environment in which the scene loads three root objects and the run loop
ends with code `r`. -/
def richScene (r : Int) : Env :=
  { loadResult := fun _ _ => [1, 2, 3]
    execResult := fun _ _ => r }

/-! ## Shape of the two executions -/

/-- The complete trace of `main` when the load leaves the root set empty. -/
theorem main_of_empty (env : Env) (argc : Int) (argv : List String)
    (h : loadedRoots env argc argv = []) :
    main env argc argv =
      { exitCode := -1
        trace := [Event.constructApp argc argv, Event.constructEngine, Event.load sceneUrl,
                  Event.rootObjectsIsEmpty true, Event.ret (-1),
                  Event.destroy Owned.engine, Event.destroy Owned.app] } := by
  unfold loadedRoots at h
  simp [main, QGuiApplication.construct, QQmlApplicationEngine.construct,
    QQmlApplicationEngine.load, QQmlApplicationEngine.rootObjectsIsEmpty,
    QQmlApplicationEngine.rootObjects, World.emit, World.leave, h]

/-- The complete trace of `main` when the load leaves the root set non-empty. -/
theorem main_of_nonempty (env : Env) (argc : Int) (argv : List String)
    (h : loadedRoots env argc argv ≠ []) :
    main env argc argv =
      { exitCode := runLoopResult env argc argv
        trace := [Event.constructApp argc argv, Event.constructEngine, Event.load sceneUrl,
                  Event.rootObjectsIsEmpty false, Event.exec (runLoopResult env argc argv),
                  Event.ret (runLoopResult env argc argv),
                  Event.destroy Owned.engine, Event.destroy Owned.app] } := by
  unfold loadedRoots at h
  simp [main, QGuiApplication.construct, QQmlApplicationEngine.construct,
    QQmlApplicationEngine.load, QQmlApplicationEngine.rootObjectsIsEmpty,
    QQmlApplicationEngine.rootObjects, QGuiApplication.exec, World.emit, World.leave, h,
    runLoopResult, loadedRoots]

/-! ## Load failure and the run loop -/

/-- C1: for every argument vector and every outcome of the load, when the
root-object set is empty after the load `main` returns exactly `-1` and the run
loop is never entered (so an execution that enters the run loop has a
non-empty root-object set). -/
theorem main_load_failure (env : Env) (argc : Int) (argv : List String)
    (h : loadedRoots env argc argv = []) :
    (main env argc argv).exitCode = -1 ∧
    (∀ r, Event.exec r ∉ (main env argc argv).trace) ∧
    (main env argc argv).enteredRunLoop = false := by
  rw [main_of_empty env argc argv h]
  simp [Outcome.enteredRunLoop, Event.isExec]

/-- The load failure property applied to a scene that does not load. -/
theorem main_load_failure_witness :
    loadedRoots brokenScene 1 ["asteroid-dodger"] = [] ∧
    ((main brokenScene 1 ["asteroid-dodger"]).exitCode = -1 ∧
     (∀ r, Event.exec r ∉ (main brokenScene 1 ["asteroid-dodger"]).trace) ∧
     (main brokenScene 1 ["asteroid-dodger"]).enteredRunLoop = false) :=
  ⟨rfl, main_load_failure brokenScene 1 ["asteroid-dodger"] rfl⟩

/-- C2: for every argument vector, every non-empty root-object set produced by
the load and every integer `r` returned by the run loop, `main` enters the run
loop and returns `r` unmodified. -/
theorem main_returns_run_loop_value (env : Env) (argc : Int) (argv : List String) (r : Int)
    (hne : loadedRoots env argc argv ≠ [])
    (hr : runLoopResult env argc argv = r) :
    Event.exec r ∈ (main env argc argv).trace ∧
    (main env argc argv).enteredRunLoop = true ∧
    (main env argc argv).exitCode = r := by
  rw [main_of_nonempty env argc argv hne, hr]
  simp [Outcome.enteredRunLoop, Event.isExec]

/-- The run-loop property applied to a scene with one root object whose run loop
ends with code `42`. -/
theorem main_returns_run_loop_value_witness :
    (loadedRoots (goodScene 42) 1 ["asteroid-dodger"] ≠ [] ∧
     runLoopResult (goodScene 42) 1 ["asteroid-dodger"] = 42) ∧
    (Event.exec 42 ∈ (main (goodScene 42) 1 ["asteroid-dodger"]).trace ∧
     (main (goodScene 42) 1 ["asteroid-dodger"]).enteredRunLoop = true ∧
     (main (goodScene 42) 1 ["asteroid-dodger"]).exitCode = 42) :=
  ⟨⟨by simp [loadedRoots, goodScene], rfl⟩,
   main_returns_run_loop_value (goodScene 42) 1 ["asteroid-dodger"] 42
     (by simp [loadedRoots, goodScene]) rfl⟩

/-! ## The failure code -/

/-- C3, as stated, fails: with one root object loaded and a run loop that ends
with code `-1`, the run loop is entered and `main` returns `-1`. -/
theorem minus_one_after_successful_load :
    loadedRoots (goodScene (-1)) 1 ["asteroid-dodger"] ≠ [] ∧
    (main (goodScene (-1)) 1 ["asteroid-dodger"]).enteredRunLoop = true ∧
    (main (goodScene (-1)) 1 ["asteroid-dodger"]).exitCode = -1 := by
  have hne : loadedRoots (goodScene (-1)) 1 ["asteroid-dodger"] ≠ [] := by
    simp [loadedRoots, goodScene]
  refine ⟨hne, ?_, ?_⟩
  · rw [main_of_nonempty _ _ _ hne]
    simp [Outcome.enteredRunLoop, Event.isExec]
  · rw [main_of_nonempty _ _ _ hne]
    rfl

/-- C3, amended: when `main` returns `-1`, either the scene produced zero root
objects (and the run loop was not entered), or the load succeeded, the run loop
was entered and the run loop itself returned `-1`. -/
theorem minus_one_origin (env : Env) (argc : Int) (argv : List String)
    (h : (main env argc argv).exitCode = -1) :
    (loadedRoots env argc argv = [] ∧ (main env argc argv).enteredRunLoop = false) ∨
    (loadedRoots env argc argv ≠ [] ∧ (main env argc argv).enteredRunLoop = true ∧
     runLoopResult env argc argv = -1) := by
  by_cases hroots : loadedRoots env argc argv = []
  · refine Or.inl ⟨hroots, ?_⟩
    rw [main_of_empty env argc argv hroots]
    simp [Outcome.enteredRunLoop, Event.isExec]
  · refine Or.inr ⟨hroots, ?_, ?_⟩
    · rw [main_of_nonempty env argc argv hroots]
      simp [Outcome.enteredRunLoop, Event.isExec]
    · rw [main_of_nonempty env argc argv hroots] at h
      exact h

/-- The amended failure-code property applied to a scene that does not load. -/
theorem minus_one_origin_witness :
    (main brokenScene 0 []).exitCode = -1 ∧
    ((loadedRoots brokenScene 0 [] = [] ∧ (main brokenScene 0 []).enteredRunLoop = false) ∨
     (loadedRoots brokenScene 0 [] ≠ [] ∧ (main brokenScene 0 []).enteredRunLoop = true ∧
      runLoopResult brokenScene 0 [] = -1)) :=
  ⟨rfl, minus_one_origin brokenScene 0 [] rfl⟩

/-! ## The resource identifier -/

/-- C4: for every argument vector and every environment, the load is requested
for the compiled-in URL `qrc:/asteroid-dodger.qml` and for nothing else. -/
theorem main_loads_fixed_url (env : Env) (argc : Int) (argv : List String) :
    (main env argc argv).trace.filter Event.isLoad =
      [Event.load (QUrl.mk "qrc:/asteroid-dodger.qml")] ∧
    (∀ url, Event.load url ∈ (main env argc argv).trace ↔
      url = QUrl.mk "qrc:/asteroid-dodger.qml") := by
  by_cases hroots : loadedRoots env argc argv = []
  · rw [main_of_empty env argc argv hroots]
    simp [Event.isLoad, sceneUrl]
  · rw [main_of_nonempty env argc argv hroots]
    simp [Event.isLoad, sceneUrl]

/-! ## Arguments and root objects do not steer `main` -/

/-- C5: the runtime is constructed, first of all, with exactly the `argc` and
`argv` given to `main`, and `main` reads neither afterwards: for two argument
vectors (under any two environments) for which the load yields the same
root-object set and the run loop returns the same value, `main` takes the same
branch, returns the same exit code and performs the same events after the
construction of the runtime. -/
theorem main_forwards_arguments (env₁ env₂ : Env) (argc₁ argc₂ : Int)
    (argv₁ argv₂ : List String)
    (hroots : loadedRoots env₁ argc₁ argv₁ = loadedRoots env₂ argc₂ argv₂)
    (hexec : runLoopResult env₁ argc₁ argv₁ = runLoopResult env₂ argc₂ argv₂) :
    (main env₁ argc₁ argv₁).trace.head? = some (Event.constructApp argc₁ argv₁) ∧
    (∀ c v, Event.constructApp c v ∈ (main env₁ argc₁ argv₁).trace ↔
      (c = argc₁ ∧ v = argv₁)) ∧
    (main env₁ argc₁ argv₁).enteredRunLoop = (main env₂ argc₂ argv₂).enteredRunLoop ∧
    (main env₁ argc₁ argv₁).exitCode = (main env₂ argc₂ argv₂).exitCode ∧
    (main env₁ argc₁ argv₁).trace.tail = (main env₂ argc₂ argv₂).trace.tail := by
  by_cases h₁ : loadedRoots env₁ argc₁ argv₁ = []
  · have h₂ : loadedRoots env₂ argc₂ argv₂ = [] := hroots ▸ h₁
    rw [main_of_empty env₁ argc₁ argv₁ h₁, main_of_empty env₂ argc₂ argv₂ h₂]
    simp [Outcome.enteredRunLoop, Event.isExec]
  · have h₂ : loadedRoots env₂ argc₂ argv₂ ≠ [] := hroots ▸ h₁
    rw [main_of_nonempty env₁ argc₁ argv₁ h₁, main_of_nonempty env₂ argc₂ argv₂ h₂, hexec]
    simp [Outcome.enteredRunLoop, Event.isExec]

/-- The forwarding property applied to two different argument vectors under a
scene with one root object whose run loop ends with code `0`. -/
theorem main_forwards_arguments_witness :
    (loadedRoots (goodScene 0) 1 ["asteroid-dodger"] =
       loadedRoots (goodScene 0) 3 ["asteroid-dodger", "-platform", "wayland"] ∧
     runLoopResult (goodScene 0) 1 ["asteroid-dodger"] =
       runLoopResult (goodScene 0) 3 ["asteroid-dodger", "-platform", "wayland"]) ∧
    ((main (goodScene 0) 1 ["asteroid-dodger"]).trace.head? =
       some (Event.constructApp 1 ["asteroid-dodger"]) ∧
     (∀ c v, Event.constructApp c v ∈ (main (goodScene 0) 1 ["asteroid-dodger"]).trace ↔
       (c = 1 ∧ v = ["asteroid-dodger"])) ∧
     (main (goodScene 0) 1 ["asteroid-dodger"]).enteredRunLoop =
       (main (goodScene 0) 3 ["asteroid-dodger", "-platform", "wayland"]).enteredRunLoop ∧
     (main (goodScene 0) 1 ["asteroid-dodger"]).exitCode =
       (main (goodScene 0) 3 ["asteroid-dodger", "-platform", "wayland"]).exitCode ∧
     (main (goodScene 0) 1 ["asteroid-dodger"]).trace.tail =
       (main (goodScene 0) 3 ["asteroid-dodger", "-platform", "wayland"]).trace.tail) :=
  ⟨⟨rfl, rfl⟩,
   main_forwards_arguments (goodScene 0) (goodScene 0) 1 3 ["asteroid-dodger"]
     ["asteroid-dodger", "-platform", "wayland"] rfl rfl⟩

/-- C9: `main` inspects the load result only for emptiness: for any two
non-empty root-object sets and the same run-loop return value, `main` takes the
same branch (the run loop is entered), returns the same exit code and performs
the same events; the number and identity of the root objects have no
influence. -/
theorem main_reads_roots_for_emptiness_only (env₁ env₂ : Env) (argc : Int)
    (argv : List String)
    (h₁ : loadedRoots env₁ argc argv ≠ [])
    (h₂ : loadedRoots env₂ argc argv ≠ [])
    (hexec : runLoopResult env₁ argc argv = runLoopResult env₂ argc argv) :
    (main env₁ argc argv).exitCode = (main env₂ argc argv).exitCode ∧
    (main env₁ argc argv).enteredRunLoop = true ∧
    (main env₂ argc argv).enteredRunLoop = true ∧
    (main env₁ argc argv).trace = (main env₂ argc argv).trace := by
  rw [main_of_nonempty env₁ argc argv h₁, main_of_nonempty env₂ argc argv h₂, hexec]
  simp [Outcome.enteredRunLoop, Event.isExec]

/-- The emptiness-only property applied to a scene with one root object and a
scene with three, both with a run loop ending with code `5`. -/
theorem main_reads_roots_for_emptiness_only_witness :
    (loadedRoots (goodScene 5) 1 ["asteroid-dodger"] ≠ [] ∧
     loadedRoots (richScene 5) 1 ["asteroid-dodger"] ≠ [] ∧
     loadedRoots (goodScene 5) 1 ["asteroid-dodger"] ≠
       loadedRoots (richScene 5) 1 ["asteroid-dodger"] ∧
     runLoopResult (goodScene 5) 1 ["asteroid-dodger"] =
       runLoopResult (richScene 5) 1 ["asteroid-dodger"]) ∧
    ((main (goodScene 5) 1 ["asteroid-dodger"]).exitCode =
       (main (richScene 5) 1 ["asteroid-dodger"]).exitCode ∧
     (main (goodScene 5) 1 ["asteroid-dodger"]).enteredRunLoop = true ∧
     (main (richScene 5) 1 ["asteroid-dodger"]).enteredRunLoop = true ∧
     (main (goodScene 5) 1 ["asteroid-dodger"]).trace =
       (main (richScene 5) 1 ["asteroid-dodger"]).trace) :=
  ⟨⟨by simp [loadedRoots, goodScene], by simp [loadedRoots, richScene],
    by simp [loadedRoots, goodScene, richScene], rfl⟩,
   main_reads_roots_for_emptiness_only (goodScene 5) (richScene 5) 1 ["asteroid-dodger"]
     (by simp [loadedRoots, goodScene]) (by simp [loadedRoots, richScene]) rfl⟩

/-! ## Order of events -/

/-- C7: every execution of `main` produces exactly one of the two event
sequences (failed start, or started application with some run-loop value),
never both; the load is requested exactly once, the run loop is entered at most
once, only after the load and after the root set has been observed non-empty,
and never in an execution that observed an empty root set. -/
theorem main_event_sequence (env : Env) (argc : Int) (argv : List String) :
    ((main env argc argv).trace.filter (fun e => !e.isDestroy) = failedSequence argc argv ∨
     ∃ r, (main env argc argv).trace.filter (fun e => !e.isDestroy) =
       runningSequence argc argv r) ∧
    ¬ ((main env argc argv).trace.filter (fun e => !e.isDestroy) = failedSequence argc argv ∧
       ∃ r, (main env argc argv).trace.filter (fun e => !e.isDestroy) =
         runningSequence argc argv r) ∧
    ((main env argc argv).trace.filter Event.isLoad).length = 1 ∧
    ((main env argc argv).trace.filter Event.isExec).length ≤ 1 ∧
    (∀ before r after, (main env argc argv).trace = before ++ Event.exec r :: after →
      Event.load sceneUrl ∈ before ∧ Event.rootObjectsIsEmpty false ∈ before ∧
      (∀ q, Event.exec q ∉ before) ∧ (∀ q, Event.exec q ∉ after) ∧
      (∀ u, Event.load u ∉ after)) ∧
    (Event.rootObjectsIsEmpty true ∈ (main env argc argv).trace →
      ∀ r, Event.exec r ∉ (main env argc argv).trace) := by
  by_cases hroots : loadedRoots env argc argv = []
  · rw [main_of_empty env argc argv hroots]
    refine ⟨Or.inl (by simp [failedSequence, Event.isDestroy]), ?_, ?_, ?_, ?_, ?_⟩
    · simp [failedSequence, runningSequence, Event.isDestroy]
    · simp [Event.isLoad]
    · simp [Event.isExec]
    · intro before r after h
      exfalso
      have hmem : Event.exec r ∈ before ++ Event.exec r :: after := by simp
      rw [← h] at hmem
      simp at hmem
    · simp
  · rw [main_of_nonempty env argc argv hroots]
    refine ⟨Or.inr ⟨runLoopResult env argc argv, by simp [runningSequence, Event.isDestroy]⟩,
      ?_, ?_, ?_, ?_, ?_⟩
    · simp [failedSequence, runningSequence, Event.isDestroy]
    · simp [Event.isLoad]
    · simp [Event.isExec]
    · intro before r after h
      rcases before with _ | ⟨a0, _ | ⟨a1, _ | ⟨a2, _ | ⟨a3, _ | ⟨a4, _ | ⟨a5, _ | ⟨a6, _ |
        ⟨a7, rest⟩⟩⟩⟩⟩⟩⟩⟩ <;> simp at h
      obtain ⟨h0, h1, h2, h3, _, hafter⟩ := h
      subst h0 h1 h2 h3 hafter
      simp
    · simp

/-- C8: on every return from `main`, on the failure path as well as on the
run-loop path, the runtime is constructed first and the engine second, the
return value is computed, and only then the two owned objects are destroyed,
each exactly once, the engine first and the runtime last. -/
theorem main_teardown_order (env : Env) (argc : Int) (argv : List String) :
    ∃ body, (main env argc argv).trace =
        [Event.constructApp argc argv, Event.constructEngine] ++ body ++
        [Event.ret (main env argc argv).exitCode,
         Event.destroy Owned.engine, Event.destroy Owned.app] ∧
      (∀ e ∈ body, e.isConstruct = false ∧ e.isDestroy = false ∧ ∀ c, e ≠ Event.ret c) ∧
      (main env argc argv).trace.count (Event.destroy Owned.engine) = 1 ∧
      (main env argc argv).trace.count (Event.destroy Owned.app) = 1 := by
  by_cases hroots : loadedRoots env argc argv = []
  · rw [main_of_empty env argc argv hroots]
    refine ⟨[Event.load sceneUrl, Event.rootObjectsIsEmpty true], ?_, ?_, ?_, ?_⟩
    · simp
    · simp [Event.isConstruct, Event.isDestroy]
    · simp [List.count_cons]
    · simp [List.count_cons]
  · rw [main_of_nonempty env argc argv hroots]
    refine ⟨[Event.load sceneUrl, Event.rootObjectsIsEmpty false,
      Event.exec (runLoopResult env argc argv)], ?_, ?_, ?_, ?_⟩
    · simp
    · simp [Event.isConstruct, Event.isDestroy]
    · simp [List.count_cons]
    · simp [List.count_cons]

end AsteroidDodger
